import Mathlib

/-!
# Verification of the pdfcrop web UI coordinate and controller logic

Shallow embedding of the browser-side pdfcrop application:

* the `PDFViewer` coordinate conversions (`canvasToPDF`, `pdfToCanvas`,
  `canvasRectToPDFBbox`, `pdfBboxToCanvasRect`) and its zoom-scale state
  machine (`renderPage` auto-fit, `setScale`, `zoomIn`, `zoomOut`,
  `fitToWidth`, `fitToPage`);
* the `BBoxOverlay` selection-rectangle clamping (`getCanvasBbox`) and the
  completion flow (`finishDrawing` / `onBboxComplete`);
* the application controller (`handleFileUpload`, `handleAutoDetect`,
  `handleCrop`, `getPageRange`, `parsePageRange`).

JavaScript numbers are modelled as exact rationals (`ℚ`); JavaScript's
`Map` is modelled as an insertion-ordered association list; nullable
values are modelled with `Option`.
-/

namespace PdfCrop

/-- PDF bounding box `{left, bottom, right, top}` in page points
(origin bottom-left). -/
structure PDFBBox where
  left : ℚ
  bottom : ℚ
  right : ℚ
  top : ℚ
deriving Repr, DecidableEq

/-- Canvas rectangle `{x, y, width, height}` in device pixels
(origin top-left). -/
structure CanvasRect where
  x : ℚ
  y : ℚ
  width : ℚ
  height : ℚ
deriving Repr, DecidableEq

/-- Page dimensions at scale 1.0, as returned by
`PDFViewer.getPageDimensions` from the current page object. -/
structure PageDims where
  width : ℚ
  height : ℚ
deriving Repr, DecidableEq

/-- The fields of `PDFViewer` that the coordinate conversions read:
the render scale, whether `currentViewport` is non-null, and the
dimensions of `currentPageObject` (none when that field is null). -/
structure ViewerState where
  scale : ℚ
  hasViewport : Bool
  currentPageObject : Option PageDims
deriving Repr, DecidableEq

/-- Model of `PDFViewer.getPageDimensions`: returns null when no current page
object, otherwise the scale-1.0 viewport dimensions. -/
def getPageDimensions (s : ViewerState) : Option PageDims :=
  s.currentPageObject

/-- Model of `PDFViewer.canvasToPDF`: null when no current viewport; `{x: 0, y: 0}`
when the page dimensions are unavailable; otherwise
`(canvasX / scale, pageHeight - canvasY / scale)`. -/
def canvasToPDF (s : ViewerState) (canvasX canvasY : ℚ) : Option (ℚ × ℚ) :=
  if s.hasViewport = false then none
  else
    match getPageDimensions s with
    | none => some (0, 0)
    | some d => some (canvasX / s.scale, d.height - canvasY / s.scale)

/-- Model of `PDFViewer.pdfToCanvas`: null when no current viewport or no page
dimensions; otherwise `(pdfX * scale, (pageHeight - pdfY) * scale)`. -/
def pdfToCanvas (s : ViewerState) (pdfX pdfY : ℚ) : Option (ℚ × ℚ) :=
  if s.hasViewport = false then none
  else
    match getPageDimensions s with
    | none => none
    | some d => some (pdfX * s.scale, (d.height - pdfY) * s.scale)

/-- The all-zero bounding box returned by `canvasRectToPDFBbox` when a
corner conversion fails. -/
def zeroBBox : PDFBBox := ⟨0, 0, 0, 0⟩

/-- The all-zero rectangle returned by `pdfBboxToCanvasRect` when a
corner conversion fails. -/
def zeroRect : CanvasRect := ⟨0, 0, 0, 0⟩

/-- Model of `PDFViewer.canvasRectToPDFBbox`: converts the rectangle's top-left and
bottom-right corners with `canvasToPDF`; if either conversion is null the
result is the all-zero bbox. -/
def canvasRectToPDFBbox (s : ViewerState) (rect : CanvasRect) : PDFBBox :=
  match canvasToPDF s rect.x rect.y,
        canvasToPDF s (rect.x + rect.width) (rect.y + rect.height) with
  | some tl, some br => ⟨tl.1, br.2, br.1, tl.2⟩
  | _, _ => zeroBBox

/-- Model of `PDFViewer.pdfBboxToCanvasRect`: converts `(left, top)` and
`(right, bottom)` with `pdfToCanvas`; if either conversion is null the
result is the all-zero rectangle. -/
def pdfBboxToCanvasRect (s : ViewerState) (bbox : PDFBBox) : CanvasRect :=
  match pdfToCanvas s bbox.left bbox.top,
        pdfToCanvas s bbox.right bbox.bottom with
  | some tl, some br => ⟨tl.1, tl.2, br.1 - tl.1, br.2 - tl.2⟩
  | _, _ => zeroRect

/-- Model of `BBoxOverlay.getCanvasBbox`: orders the anchor and current pointer
coordinates, clamps all four to `[0, canvasWidth] × [0, canvasHeight]`,
and returns the resulting `{x, y, width, height}` rectangle. -/
def getCanvasBbox (startX startY currentX currentY canvasWidth canvasHeight : ℚ) :
    CanvasRect :=
  let x1 := min startX currentX
  let y1 := min startY currentY
  let x2 := max startX currentX
  let y2 := max startY currentY
  let x1 := max 0 (min x1 canvasWidth)
  let y1 := max 0 (min y1 canvasHeight)
  let x2 := max 0 (min x2 canvasWidth)
  let y2 := max 0 (min y2 canvasHeight)
  ⟨x1, y1, x2 - x1, y2 - y1⟩

/-! ## Page-range parsing (`parsePageRange`, `getPageRange` custom branch)

JavaScript string operations are modelled on `List Char`: `split` on a
single-character separator, `trim`, and radix-10 `parseInt` (optional
sign, leading digits, `NaN` — here `none` — when no digit is present). -/

/-- JavaScript `str.split(sep)` for a one-character separator. -/
def splitOnChar (sep : Char) : List Char → List (List Char)
  | [] => [[]]
  | c :: rest =>
    let r := splitOnChar sep rest
    if c = sep then [] :: r
    else
      match r with
      | [] => [[c]]
      | h :: t => (c :: h) :: t

/-- JavaScript `str.trim()`: strip whitespace from both ends. -/
def trimChars (s : List Char) : List Char :=
  ((s.dropWhile Char.isWhitespace).reverse.dropWhile Char.isWhitespace).reverse

/-- The numeric value of a leading digit run. -/
def digitsVal (ds : List Char) : Nat :=
  ds.foldl (fun acc c => acc * 10 + (c.toNat - 48)) 0

/-- JavaScript `parseInt(s)` (radix 10): optional sign, then the leading
run of digits; `none` models `NaN` (no digits). Trailing non-digit
characters are ignored, as in JavaScript. -/
def parseIntJS (s : List Char) : Option Int :=
  match s with
  | [] => none
  | c :: rest =>
    if c = '-' then
      let ds := rest.takeWhile Char.isDigit
      if ds.isEmpty then none else some (-(digitsVal ds : Int))
    else if c = '+' then
      let ds := rest.takeWhile Char.isDigit
      if ds.isEmpty then none else some (digitsVal ds : Int)
    else
      let ds := s.takeWhile Char.isDigit
      if ds.isEmpty then none else some (digitsVal ds : Int)

/-- JavaScript `Set.add` on an insertion-ordered collection: append the
element unless it is already present. -/
def insertUnique (l : List Int) (x : Int) : List Int :=
  if x ∈ l then l else l ++ [x]

/-- The zero-based indices emitted by the loop
`for (let i = start; i <= end; i++) pages.add(i - 1)`. -/
def rangeTokens (s e : Int) : List Int :=
  (List.range (e + 1 - s).toNat).map (fun k => s + (k : Int) - 1)

/-- One iteration of `parsePageRange`'s loop body on a trimmed token:
a token containing `-` is split into `start-end` (both sides trimmed and
parsed with `parseInt`; a `NaN` on either side makes the loop body a
no-op), otherwise the token itself is parsed and, when numeric,
`token - 1` is added. -/
def processPart (acc : List Int) (part : List Char) : List Int :=
  if part.contains '-' then
    let pieces := splitOnChar '-' part
    match parseIntJS (trimChars (pieces.headD [])),
          parseIntJS (trimChars ((pieces.drop 1).headD [])) with
    | some s, some e => (rangeTokens s e).foldl insertUnique acc
    | _, _ => acc
  else
    match parseIntJS part with
    | some n => insertUnique acc (n - 1)
    | none => acc

/-- Insert into an ascending list, keeping order. -/
def insertSorted (x : Int) : List Int → List Int
  | [] => [x]
  | y :: ys => if x ≤ y then x :: y :: ys else y :: insertSorted x ys

/-- Model of `Array.from(pages).sort((a, b) => a - b)`: ascending numeric sort. -/
def sortInts (l : List Int) : List Int :=
  l.foldr insertSorted []

/-- Model of `parsePageRange`: split the input on commas, trim each token, process
each token (single page or inclusive range, converted to zero-based),
deduplicate, and sort ascending. -/
def parsePageRange (text : String) : List Int :=
  let parts := (splitOnChar ',' text.toList).map trimChars
  sortInts (parts.foldl processPart [])

/-- The `custom` branch of `getPageRange`: an empty parse result becomes
the null sentinel meaning "all pages". -/
def getPageRangeCustom (text : String) : Option (List Int) :=
  let pages := parsePageRange text
  if 0 < pages.length then some pages else none

/-! ## Per-page selection map and controller handlers

`pageBboxes` is a JavaScript `Map<number, PDFBBox>`, modelled as an
insertion-ordered association list with unique keys. -/

/-- Model of JavaScript `Map.set`: replace the value of an existing key in place, otherwise
append a new entry. -/
def mapSet : List (Int × PDFBBox) → Int → PDFBBox → List (Int × PDFBBox)
  | [], k, v => [(k, v)]
  | (k', v') :: rest, k, v =>
    if k' = k then (k, v) :: rest else (k', v') :: mapSet rest k v

/-- Model of JavaScript `Map.get`: the value stored at a key, if any. -/
def mapGet : List (Int × PDFBBox) → Int → Option PDFBBox
  | [], _ => none
  | (k', v) :: rest, k => if k' = k then some v else mapGet rest k

/-- Model of `BBoxOverlay.canvasBboxToPdf`: null when the overlay has no viewer,
otherwise `pdfViewer.canvasRectToPDFBbox`. -/
def canvasBboxToPdf (viewer : Option ViewerState) (rect : CanvasRect) :
    Option PDFBBox :=
  match viewer with
  | none => none
  | some s => some (canvasRectToPDFBbox s rect)

/-- The bbox that `BBoxOverlay.finishDrawing` passes to the
`onBboxComplete` callback: the clamped final canvas rectangle converted
with `canvasBboxToPdf`. -/
def finishDrawingBbox (viewer : Option ViewerState)
    (startX startY x y canvasWidth canvasHeight : ℚ) : Option PDFBBox :=
  canvasBboxToPdf viewer (getCanvasBbox startX startY x y canvasWidth canvasHeight)

/-- The `onBboxComplete` callback registered in `initialize`: when the
received bbox is non-null, store it in `pageBboxes` under the zero-based
current page index. -/
def onBboxCompleteHandler (pageBboxes : List (Int × PDFBBox)) (currentPage : Int)
    (pdfBbox : Option PDFBBox) : List (Int × PDFBBox) :=
  match pdfBbox with
  | some b => mapSet pageBboxes (currentPage - 1) b
  | none => pageBboxes

/-- The application-controller state read and written by the upload,
auto-detect and crop handlers: the stored document bytes and filename,
the per-page selection map, navigation counters, and whether the loading
overlay is shown. -/
structure AppState where
  currentPDFData : Option (List Nat)
  currentPDFFilename : String
  pageBboxes : List (Int × PDFBBox)
  currentPage : Int
  totalPages : Int
  loadingVisible : Bool
deriving Repr, DecidableEq

/-- Model of `handleFileUpload` after the file bytes have been read: show the
loading overlay, store the new bytes and filename, clear `pageBboxes`,
then attempt the viewer load (`loadResult` is the outcome of
`pdfViewer.loadPDF`); on success set the page counters, on failure alert;
both paths hide the loading overlay. -/
def handleFileUpload (st : AppState) (name : String) (bytes : List Nat)
    (loadResult : Except String Nat) : AppState :=
  let st1 := { st with loadingVisible := true }
  let st2 := { st1 with
    currentPDFData := some bytes
    currentPDFFilename := name
    pageBboxes := [] }
  match loadResult with
  | .ok n =>
      { st2 with totalPages := n, currentPage := 1, loadingVisible := false }
  | .error _ => { st2 with loadingVisible := false }

/-- Model of `handleAutoDetect`: early return when no document bytes are stored;
otherwise show the loading overlay, run the external detection
(`detectResult` is the outcome of `detectBbox`); on success store the
detected bbox for the current page, on failure alert; both paths hide
the loading overlay. -/
def handleAutoDetect (st : AppState) (detectResult : Except String PDFBBox) :
    AppState :=
  match st.currentPDFData with
  | none => st
  | some _ =>
    let st1 := { st with loadingVisible := true }
    match detectResult with
    | .ok b =>
        { st1 with
          pageBboxes := mapSet st1.pageBboxes (st1.currentPage - 1) b
          loadingVisible := false }
    | .error _ => { st1 with loadingVisible := false }

/-- Model of `handleCrop`: early return when no document bytes are stored;
otherwise show the loading overlay, invoke the external crop on a copy of
the stored bytes (`cropResult` is the outcome of `cropPdf`); on success
download the result, on failure alert; both paths hide the loading
overlay. Neither path mutates the stored bytes or the selection map. -/
def handleCrop (st : AppState) (cropResult : Except String (List Nat)) :
    AppState :=
  match st.currentPDFData with
  | none => st
  | some _ =>
    let st1 := { st with loadingVisible := true }
    match cropResult with
    | .ok _ => { st1 with loadingVisible := false }
    | .error _ => { st1 with loadingVisible := false }

/-! ## Zoom-scale state machine

The scale-relevant fields of `PDFViewer` are `scale` and `manualScale`.
Each operation may read a render environment: the container dimensions
(after the `-60` padding adjustment) and the page's scale-1.0 viewport
dimensions. -/

/-- The container and default-viewport dimensions read by `renderPage`
and `fitToWidth`. -/
structure RenderEnv where
  containerWidth : ℚ
  containerHeight : ℚ
  defaultWidth : ℚ
  defaultHeight : ℚ
deriving Repr, DecidableEq

/-- The clamp in `setScale`: `Math.max(0.5, Math.min(3.0, newScale))`. -/
def clampScale (v : ℚ) : ℚ := max (1/2) (min 3 v)

/-- The auto-fit scale computed by `renderPage` when the scale was not
manually set: `Math.max(0.5, Math.min(scaleX, scaleY, 3.0))`. -/
def autoFitScale (env : RenderEnv) : ℚ :=
  max (1/2)
    (min (env.containerWidth / env.defaultWidth)
      (min (env.containerHeight / env.defaultHeight) 3))

/-- Scale-relevant viewer state: `(scale, manualScale)`. -/
structure ZoomState where
  scale : ℚ
  manualScale : Bool
deriving Repr, DecidableEq

/-- The `PDFViewer` initial field values: `scale = 1.0`,
`manualScale = false`. -/
def initialZoom : ZoomState := ⟨1, false⟩

/-- The zoom operations of the viewer. `guardOk` records whether
`renderPage`'s early guards (document loaded, page number valid, page
fetch succeeded) passed; when they fail the method throws before touching
the scale. `hasPage` records `fitToWidth`'s `currentPageObject` guard. -/
inductive ZoomOp where
  | render (env : RenderEnv) (guardOk : Bool)
  | set (newScale : ℚ) (env : RenderEnv) (guardOk : Bool)
  | zoomIn (env : RenderEnv) (guardOk : Bool)
  | zoomOut (env : RenderEnv) (guardOk : Bool)
  | fitWidth (env : RenderEnv) (hasPage : Bool) (guardOk : Bool)
  | fitPage (env : RenderEnv) (guardOk : Bool)

/-- Model of `renderPage`'s effect on the zoom state: with `manualScale` set the
scale is kept, otherwise it is recomputed with the auto-fit clamp. -/
def renderPageZoom (z : ZoomState) (env : RenderEnv) (guardOk : Bool) : ZoomState :=
  if guardOk = false then z
  else if z.manualScale then z
  else ⟨autoFitScale env, z.manualScale⟩

/-- Model of `setScale`: clamp the requested scale, mark the scale manual, then
re-render the current page. -/
def setScaleZoom (z : ZoomState) (newScale : ℚ) (env : RenderEnv)
    (guardOk : Bool) : ZoomState :=
  renderPageZoom ⟨clampScale newScale, true⟩ env guardOk

/-- One zoom operation. `zoomIn` and `zoomOut` scale the current value by
1.25, `fitToWidth` fits the container width, `fitToPage` clears the
manual flag and re-renders. -/
def applyZoomOp (z : ZoomState) : ZoomOp → ZoomState
  | .render env guardOk => renderPageZoom z env guardOk
  | .set newScale env guardOk => setScaleZoom z newScale env guardOk
  | .zoomIn env guardOk => setScaleZoom z (z.scale * (5/4)) env guardOk
  | .zoomOut env guardOk => setScaleZoom z (z.scale / (5/4)) env guardOk
  | .fitWidth env hasPage guardOk =>
      if hasPage = false then z
      else setScaleZoom z (env.containerWidth / env.defaultWidth) env guardOk
  | .fitPage env guardOk => renderPageZoom ⟨z.scale, false⟩ env guardOk

/-- The zoom state after a sequence of operations from the initial
state. -/
def runZoomOps (ops : List ZoomOp) : ZoomState :=
  ops.foldl applyZoomOp initialZoom

/-! ## Theorems -/

/-- Reduction of `canvasToPDF` in a rendered state. -/
lemma canvasToPDF_rendered (s : ViewerState) (d : PageDims)
    (hv : s.hasViewport = true) (hp : s.currentPageObject = some d)
    (x y : ℚ) :
    canvasToPDF s x y = some (x / s.scale, d.height - y / s.scale) := by
  simp [canvasToPDF, getPageDimensions, hv, hp]

/-- Reduction of `pdfToCanvas` in a rendered state. -/
lemma pdfToCanvas_rendered (s : ViewerState) (d : PageDims)
    (hv : s.hasViewport = true) (hp : s.currentPageObject = some d)
    (x y : ℚ) :
    pdfToCanvas s x y = some (x * s.scale, (d.height - y) * s.scale) := by
  simp [pdfToCanvas, getPageDimensions, hv, hp]

/-- Reduction of `canvasRectToPDFBbox` in a rendered state. -/
lemma canvasRectToPDFBbox_rendered (s : ViewerState) (d : PageDims)
    (hv : s.hasViewport = true) (hp : s.currentPageObject = some d)
    (rect : CanvasRect) :
    canvasRectToPDFBbox s rect =
      ⟨rect.x / s.scale, d.height - (rect.y + rect.height) / s.scale,
        (rect.x + rect.width) / s.scale, d.height - rect.y / s.scale⟩ := by
  simp [canvasRectToPDFBbox, canvasToPDF_rendered s d hv hp]

/-- C4: with a rendered page (viewport present, page dimensions
available, positive scale), `canvasToPDF` returns
`(deviceX / scale, pageHeight - deviceY / scale)`, `pdfToCanvas` returns
`(pdfX * scale, (pageHeight - pdfY) * scale)`, and the two maps are
mutually inverse. -/
theorem canvasToPDF_formula_and_inverse
    (s : ViewerState) (d : PageDims)
    (hv : s.hasViewport = true) (hp : s.currentPageObject = some d)
    (hs : 0 < s.scale) :
    (∀ deviceX deviceY : ℚ,
      canvasToPDF s deviceX deviceY =
        some (deviceX / s.scale, d.height - deviceY / s.scale)) ∧
    (∀ pdfX pdfY : ℚ,
      pdfToCanvas s pdfX pdfY =
        some (pdfX * s.scale, (d.height - pdfY) * s.scale)) ∧
    (∀ deviceX deviceY : ℚ,
      pdfToCanvas s (deviceX / s.scale) (d.height - deviceY / s.scale) =
        some (deviceX, deviceY)) ∧
    (∀ pdfX pdfY : ℚ,
      canvasToPDF s (pdfX * s.scale) ((d.height - pdfY) * s.scale) =
        some (pdfX, pdfY)) := by
  have hne : s.scale ≠ 0 := ne_of_gt hs
  refine ⟨?_, ?_, ?_, ?_⟩ <;> intro a b <;>
    simp only [canvasToPDF, pdfToCanvas, getPageDimensions, hv, hp] <;>
    simp <;> constructor <;> field_simp

/-- Witness for `canvasToPDF_formula_and_inverse` at a concrete rendered
state: scale 2, page 100 × 200, device point (10, 30). -/
theorem canvasToPDF_formula_and_inverse_witness :
    canvasToPDF ⟨2, true, some ⟨100, 200⟩⟩ 10 30 = some (5, 185) ∧
    pdfToCanvas ⟨2, true, some ⟨100, 200⟩⟩ 5 185 = some (10, 30) := by
  have h := canvasToPDF_formula_and_inverse ⟨2, true, some ⟨100, 200⟩⟩
    ⟨100, 200⟩ rfl rfl (by norm_num)
  exact ⟨by rw [h.1 10 30]; norm_num, by rw [h.2.1 5 185]; norm_num⟩

/-- C1: with a rendered page (viewport present, page dimensions
available, positive scale), converting a device rectangle whose corners
lie within the canvas bounds to a page bounding box with
`canvasRectToPDFBbox` and back with `pdfBboxToCanvasRect` reproduces the
rectangle exactly over exact rational arithmetic. -/
theorem canvasRect_pdfBbox_roundtrip
    (s : ViewerState) (d : PageDims) (rect : CanvasRect)
    (canvasWidth canvasHeight : ℚ)
    (hv : s.hasViewport = true) (hp : s.currentPageObject = some d)
    (hs : 0 < s.scale)
    (hx0 : 0 ≤ rect.x) (hy0 : 0 ≤ rect.y)
    (hx1 : rect.x + rect.width ≤ canvasWidth)
    (hy1 : rect.y + rect.height ≤ canvasHeight) :
    pdfBboxToCanvasRect s (canvasRectToPDFBbox s rect) = rect := by
  have hne : s.scale ≠ 0 := ne_of_gt hs
  obtain ⟨rx, ry, rw, rh⟩ := rect
  simp only [canvasRectToPDFBbox, pdfBboxToCanvasRect, canvasToPDF, pdfToCanvas,
    getPageDimensions, hv, hp] at *
  simp only [Bool.true_eq_false, if_false, CanvasRect.mk.injEq]
  refine ⟨?_, ?_, ?_, ?_⟩ <;> field_simp

/-- Witness for `canvasRect_pdfBbox_roundtrip`: scale 2, page 100 × 200,
rectangle (10, 20, 30, 40) inside a 200 × 400 canvas. -/
theorem canvasRect_pdfBbox_roundtrip_witness :
    pdfBboxToCanvasRect ⟨2, true, some ⟨100, 200⟩⟩
        (canvasRectToPDFBbox ⟨2, true, some ⟨100, 200⟩⟩ ⟨10, 20, 30, 40⟩) =
      ⟨10, 20, 30, 40⟩ :=
  canvasRect_pdfBbox_roundtrip ⟨2, true, some ⟨100, 200⟩⟩ ⟨100, 200⟩
    ⟨10, 20, 30, 40⟩ 200 400 rfl rfl (by norm_num)
    (by norm_num) (by norm_num) (by norm_num) (by norm_num)

/-- C5: in a rendered state whose canvas dimensions do not exceed the
scaled page dimensions, the bounding box obtained by clamping the
selection gesture with `getCanvasBbox` and converting with
`canvasRectToPDFBbox` satisfies
`0 ≤ left ≤ right ≤ pageWidth` and `0 ≤ bottom ≤ top ≤ pageHeight`,
for arbitrary (also off-canvas) pointer positions. -/
theorem clamped_selection_in_page_bounds
    (s : ViewerState) (d : PageDims)
    (startX startY currentX currentY canvasWidth canvasHeight : ℚ)
    (hv : s.hasViewport = true) (hp : s.currentPageObject = some d)
    (hs : 0 < s.scale)
    (hcw0 : 0 ≤ canvasWidth) (hch0 : 0 ≤ canvasHeight)
    (hcw : canvasWidth ≤ s.scale * d.width)
    (hch : canvasHeight ≤ s.scale * d.height) :
    ∀ bbox : PDFBBox,
      bbox = canvasRectToPDFBbox s
        (getCanvasBbox startX startY currentX currentY canvasWidth canvasHeight) →
      0 ≤ bbox.left ∧ bbox.left ≤ bbox.right ∧ bbox.right ≤ d.width ∧
      0 ≤ bbox.bottom ∧ bbox.bottom ≤ bbox.top ∧ bbox.top ≤ d.height := by
  intro bbox hbbox
  rw [canvasRectToPDFBbox_rendered s d hv hp] at hbbox
  simp only [getCanvasBbox] at hbbox
  subst hbbox
  dsimp only
  set x1 := max 0 (min (min startX currentX) canvasWidth) with hx1def
  set y1 := max 0 (min (min startY currentY) canvasHeight) with hy1def
  set x2 := max 0 (min (max startX currentX) canvasWidth) with hx2def
  set y2 := max 0 (min (max startY currentY) canvasHeight) with hy2def
  have hx1_0 : 0 ≤ x1 := le_max_left _ _
  have hy1_0 : 0 ≤ y1 := le_max_left _ _
  have hx12 : x1 ≤ x2 :=
    max_le_max le_rfl (min_le_min (min_le_max) le_rfl)
  have hy12 : y1 ≤ y2 :=
    max_le_max le_rfl (min_le_min (min_le_max) le_rfl)
  have hx2cw : x2 ≤ canvasWidth := max_le hcw0 (min_le_right _ _)
  have hy2ch : y2 ≤ canvasHeight := max_le hch0 (min_le_right _ _)
  have hxsum : x1 + (x2 - x1) = x2 := by ring
  have hysum : y1 + (y2 - y1) = y2 := by ring
  rw [hxsum, hysum]
  have hdiv1 : 0 ≤ x1 / s.scale := div_nonneg hx1_0 hs.le
  refine ⟨hdiv1, ?_, ?_, ?_, ?_, ?_⟩
  · exact (div_le_div_iff_of_pos_right hs).mpr hx12
  · rw [div_le_iff₀ hs]; linarith
  · rw [sub_nonneg, div_le_iff₀ hs]; linarith
  · have : y1 / s.scale ≤ y2 / s.scale := (div_le_div_iff_of_pos_right hs).mpr hy12
    linarith
  · have : 0 ≤ y1 / s.scale := div_nonneg hy1_0 hs.le
    linarith

/-- Witness for `clamped_selection_in_page_bounds`: scale 2, page
100 × 200, canvas 200 × 400, gesture from (-50, 500) to (250, -10) —
pointer positions well outside the canvas. -/
theorem clamped_selection_in_page_bounds_witness :
    0 ≤ (canvasRectToPDFBbox ⟨2, true, some ⟨100, 200⟩⟩
          (getCanvasBbox (-50) 500 250 (-10) 200 400)).left ∧
    (canvasRectToPDFBbox ⟨2, true, some ⟨100, 200⟩⟩
          (getCanvasBbox (-50) 500 250 (-10) 200 400)).left ≤
      (canvasRectToPDFBbox ⟨2, true, some ⟨100, 200⟩⟩
          (getCanvasBbox (-50) 500 250 (-10) 200 400)).right ∧
    (canvasRectToPDFBbox ⟨2, true, some ⟨100, 200⟩⟩
          (getCanvasBbox (-50) 500 250 (-10) 200 400)).right ≤ 100 ∧
    0 ≤ (canvasRectToPDFBbox ⟨2, true, some ⟨100, 200⟩⟩
          (getCanvasBbox (-50) 500 250 (-10) 200 400)).bottom ∧
    (canvasRectToPDFBbox ⟨2, true, some ⟨100, 200⟩⟩
          (getCanvasBbox (-50) 500 250 (-10) 200 400)).bottom ≤
      (canvasRectToPDFBbox ⟨2, true, some ⟨100, 200⟩⟩
          (getCanvasBbox (-50) 500 250 (-10) 200 400)).top ∧
    (canvasRectToPDFBbox ⟨2, true, some ⟨100, 200⟩⟩
          (getCanvasBbox (-50) 500 250 (-10) 200 400)).top ≤ 200 :=
  clamped_selection_in_page_bounds ⟨2, true, some ⟨100, 200⟩⟩ ⟨100, 200⟩
    (-50) 500 250 (-10) 200 400 rfl rfl (by norm_num) (by norm_num)
    (by norm_num) (by norm_num) (by norm_num)
    (canvasRectToPDFBbox ⟨2, true, some ⟨100, 200⟩⟩
      (getCanvasBbox (-50) 500 250 (-10) 200 400)) rfl

/-- C6 counterexample: with no active viewport, `canvasRectToPDFBbox` and
`pdfBboxToCanvasRect` do not fail — they return the fabricated all-zero
rectangle, contradicting the claim that every conversion call yields a
distinguished error/None result in that state. -/
theorem noViewport_fabricates_zero_rect_cex :
    canvasRectToPDFBbox ⟨1, false, none⟩ ⟨5, 5, 10, 10⟩ = zeroBBox ∧
    pdfBboxToCanvasRect ⟨1, false, none⟩ ⟨10, 10, 50, 50⟩ = zeroRect := by
  decide

/-- C6 amended: with no active viewport, the point conversions
`canvasToPDF` and `pdfToCanvas` return the null error, while the
rectangle conversions `canvasRectToPDFBbox` and `pdfBboxToCanvasRect`
return the all-zero sentinel rectangle; no coordinates are computed from
a guessed scale. -/
theorem noViewport_conversions
    (s : ViewerState) (h : s.hasViewport = false)
    (x y pdfX pdfY : ℚ) (rect : CanvasRect) (bbox : PDFBBox) :
    canvasToPDF s x y = none ∧
    pdfToCanvas s pdfX pdfY = none ∧
    canvasRectToPDFBbox s rect = zeroBBox ∧
    pdfBboxToCanvasRect s bbox = zeroRect := by
  simp [canvasToPDF, pdfToCanvas, canvasRectToPDFBbox, pdfBboxToCanvasRect, h]

/-- Witness for `noViewport_conversions` at a concrete no-viewport
state. -/
theorem noViewport_conversions_witness :
    canvasToPDF ⟨1, false, none⟩ 3 4 = none ∧
    pdfToCanvas ⟨1, false, none⟩ 3 4 = none ∧
    canvasRectToPDFBbox ⟨1, false, none⟩ ⟨3, 4, 5, 6⟩ = zeroBBox ∧
    pdfBboxToCanvasRect ⟨1, false, none⟩ ⟨3, 4, 5, 6⟩ = zeroRect :=
  noViewport_conversions ⟨1, false, none⟩ rfl 3 4 3 4 ⟨3, 4, 5, 6⟩ ⟨3, 4, 5, 6⟩

/-- Setting a key always makes it present with the new value. -/
lemma mapGet_mapSet (m : List (Int × PDFBBox)) (k : Int) (v : PDFBBox) :
    mapGet (mapSet m k v) k = some v := by
  induction m with
  | nil => simp [mapSet, mapGet]
  | cons hd tl ih =>
    obtain ⟨k', v'⟩ := hd
    by_cases h : k' = k
    · subst h; simp [mapSet, mapGet]
    · simp [mapSet, mapGet, h, ih]

/-- C3 counterexample: completing a zero-area gesture (pointer down and
up at the same point (10, 10), scale 1, page 200 × 300) passes a
non-null bbox to `onBboxComplete`, which stores it: the selection map
goes from empty to a one-entry map, although the drawn rectangle has
zero width and height. -/
theorem zeroArea_populates_map_cex :
    (getCanvasBbox 10 10 10 10 100 100).width = 0 ∧
    (getCanvasBbox 10 10 10 10 100 100).height = 0 ∧
    onBboxCompleteHandler [] 1
      (finishDrawingBbox (some ⟨1, true, some ⟨200, 300⟩⟩) 10 10 10 10 100 100) =
      [(0, ⟨10, 290, 10, 290⟩)] := by
  refine ⟨?_, ?_, ?_⟩
  · norm_num [getCanvasBbox]
  · norm_num [getCanvasBbox]
  · norm_num [finishDrawingBbox, canvasBboxToPdf, onBboxCompleteHandler,
      canvasRectToPDFBbox, canvasToPDF, getPageDimensions, getCanvasBbox, mapSet]

/-- C3 amended: the completion handler stores the converted bbox whenever
the callback receives a non-null value; since `canvasBboxToPdf` always
returns a bbox object when the viewer exists, a zero-area rectangle does
populate the per-page selection map (with a degenerate bbox). -/
theorem zeroArea_selection_stored
    (m : List (Int × PDFBBox)) (page : Int) (s : ViewerState)
    (rect : CanvasRect) (hzero : rect.width = 0 ∨ rect.height = 0) :
    onBboxCompleteHandler m page (canvasBboxToPdf (some s) rect) =
      mapSet m (page - 1) (canvasRectToPDFBbox s rect) ∧
    mapGet (mapSet m (page - 1) (canvasRectToPDFBbox s rect)) (page - 1) =
      some (canvasRectToPDFBbox s rect) :=
  ⟨rfl, mapGet_mapSet m (page - 1) (canvasRectToPDFBbox s rect)⟩

/-- Witness for `zeroArea_selection_stored`: empty map, page 1, scale 1,
page 200 × 300, zero-area rectangle at (10, 10). -/
theorem zeroArea_selection_stored_witness :
    ((⟨10, 10, 0, 0⟩ : CanvasRect).width = 0 ∨
      (⟨10, 10, 0, 0⟩ : CanvasRect).height = 0) ∧
    onBboxCompleteHandler [] 1
        (canvasBboxToPdf (some ⟨1, true, some ⟨200, 300⟩⟩) ⟨10, 10, 0, 0⟩) =
      mapSet [] (1 - 1)
        (canvasRectToPDFBbox ⟨1, true, some ⟨200, 300⟩⟩ ⟨10, 10, 0, 0⟩) :=
  ⟨Or.inl rfl,
    (zeroArea_selection_stored [] 1 ⟨1, true, some ⟨200, 300⟩⟩ ⟨10, 10, 0, 0⟩
      (Or.inl rfl)).1⟩

/-- C2: the page-range pipeline maps `"1-3,5"` to `[0, 1, 2, 4]`, the
empty string to the null sentinel (all pages), and the reversed range
`"5-3"` to an empty parse result. -/
theorem pageRange_pipeline_examples :
    parsePageRange "1-3,5" = [0, 1, 2, 4] ∧
    getPageRangeCustom "" = none ∧
    parsePageRange "5-3" = [] := by
  decide

/-- C10: `parsePageRange` performs no bounds checking: the token `"0"`
yields `[-1]`, a token far beyond any realistic page count yields its
unchecked zero-based index, and in general any single numeric token `n`
emits `n - 1` unconditionally. -/
theorem parsePageRange_no_bounds_check :
    parsePageRange "0" = [-1] ∧
    parsePageRange "9999" = [9998] ∧
    (∀ (t : List Char) (n : Int), t.contains '-' = false →
      parseIntJS t = some n → processPart [] t = [n - 1]) := by
  refine ⟨by decide, by decide, ?_⟩
  intro t n hdash hparse
  simp only [processPart]
  rw [if_neg (show ¬(t.contains '-' = true) by rw [hdash]; simp), hparse]
  simp [insertUnique]

/-- Witness for `parsePageRange_no_bounds_check` at the token `"42"`. -/
theorem parsePageRange_no_bounds_check_witness :
    (['4', '2'] : List Char).contains '-' = false ∧
    parseIntJS ['4', '2'] = some 42 ∧
    processPart [] ['4', '2'] = [41] :=
  ⟨by decide, by decide,
    parsePageRange_no_bounds_check.2.2 ['4', '2'] 42 (by decide) (by decide)⟩

/-- C7: `handleFileUpload` clears the per-page selection map before the
viewer load, so after the handler runs (whether the load succeeds or
fails) no entry of the previous document remains. -/
theorem handleFileUpload_clears_pageBboxes
    (st : AppState) (name : String) (bytes : List Nat)
    (loadResult : Except String Nat) :
    (handleFileUpload st name bytes loadResult).pageBboxes = [] := by
  cases loadResult <;> rfl

/-- C8 counterexample: a failing load does not leave the application
state unchanged: starting from a state with stored bytes `[1, 2, 3]` and
one stored selection, a rejected `loadPDF` leaves the selection map
cleared and the new file's bytes stored. -/
theorem load_failure_mutates_state_cex :
    ((handleFileUpload
        ⟨some [1, 2, 3], "doc.pdf", [(0, ⟨1, 2, 3, 4⟩)], 1, 3, false⟩
        "new.pdf" [9] (.error "load failed")).pageBboxes ≠
      [(0, ⟨1, 2, 3, 4⟩)]) ∧
    ((handleFileUpload
        ⟨some [1, 2, 3], "doc.pdf", [(0, ⟨1, 2, 3, 4⟩)], 1, 3, false⟩
        "new.pdf" [9] (.error "load failed")).currentPDFData ≠
      some [1, 2, 3]) := by
  decide

/-- C8 amended: every failing load, crop or auto-detect leaves the
loading overlay hidden (no loading lock); crop and auto-detect failures
leave the selection map and stored bytes unchanged; a failing load,
however, has already stored the new file's bytes and cleared the
selection map before the failure. -/
theorem failure_restores_loading_crop_detect_state
    (st : AppState) (name : String) (bytes : List Nat) (e1 e2 e3 : String)
    (h : st.loadingVisible = false) :
    ((handleFileUpload st name bytes (.error e1)).loadingVisible = false ∧
      (handleFileUpload st name bytes (.error e1)).pageBboxes = [] ∧
      (handleFileUpload st name bytes (.error e1)).currentPDFData = some bytes) ∧
    ((handleCrop st (.error e2)).loadingVisible = false ∧
      (handleCrop st (.error e2)).pageBboxes = st.pageBboxes ∧
      (handleCrop st (.error e2)).currentPDFData = st.currentPDFData) ∧
    ((handleAutoDetect st (.error e3)).loadingVisible = false ∧
      (handleAutoDetect st (.error e3)).pageBboxes = st.pageBboxes ∧
      (handleAutoDetect st (.error e3)).currentPDFData = st.currentPDFData) := by
  obtain ⟨data, fn, m, cp, tp, lv⟩ := st
  simp only at h
  subst h
  cases data <;>
    simp [handleFileUpload, handleCrop, handleAutoDetect]

/-- Witness for `failure_restores_loading_crop_detect_state` at a
concrete idle state with one stored selection. -/
theorem failure_restores_state_witness :
    ((handleFileUpload
        ⟨some [7], "doc.pdf", [(0, ⟨1, 2, 3, 4⟩)], 1, 2, false⟩
        "new.pdf" [9] (.error "x")).loadingVisible = false ∧
      (handleFileUpload
        ⟨some [7], "doc.pdf", [(0, ⟨1, 2, 3, 4⟩)], 1, 2, false⟩
        "new.pdf" [9] (.error "x")).pageBboxes = [] ∧
      (handleFileUpload
        ⟨some [7], "doc.pdf", [(0, ⟨1, 2, 3, 4⟩)], 1, 2, false⟩
        "new.pdf" [9] (.error "x")).currentPDFData = some [9]) ∧
    ((handleCrop ⟨some [7], "doc.pdf", [(0, ⟨1, 2, 3, 4⟩)], 1, 2, false⟩
        (.error "y")).loadingVisible = false ∧
      (handleCrop ⟨some [7], "doc.pdf", [(0, ⟨1, 2, 3, 4⟩)], 1, 2, false⟩
        (.error "y")).pageBboxes =
        (⟨some [7], "doc.pdf", [(0, ⟨1, 2, 3, 4⟩)], 1, 2, false⟩ : AppState).pageBboxes ∧
      (handleCrop ⟨some [7], "doc.pdf", [(0, ⟨1, 2, 3, 4⟩)], 1, 2, false⟩
        (.error "y")).currentPDFData =
        (⟨some [7], "doc.pdf", [(0, ⟨1, 2, 3, 4⟩)], 1, 2, false⟩ : AppState).currentPDFData) ∧
    ((handleAutoDetect ⟨some [7], "doc.pdf", [(0, ⟨1, 2, 3, 4⟩)], 1, 2, false⟩
        (.error "z")).loadingVisible = false ∧
      (handleAutoDetect ⟨some [7], "doc.pdf", [(0, ⟨1, 2, 3, 4⟩)], 1, 2, false⟩
        (.error "z")).pageBboxes =
        (⟨some [7], "doc.pdf", [(0, ⟨1, 2, 3, 4⟩)], 1, 2, false⟩ : AppState).pageBboxes ∧
      (handleAutoDetect ⟨some [7], "doc.pdf", [(0, ⟨1, 2, 3, 4⟩)], 1, 2, false⟩
        (.error "z")).currentPDFData =
        (⟨some [7], "doc.pdf", [(0, ⟨1, 2, 3, 4⟩)], 1, 2, false⟩ : AppState).currentPDFData) :=
  failure_restores_loading_crop_detect_state
    ⟨some [7], "doc.pdf", [(0, ⟨1, 2, 3, 4⟩)], 1, 2, false⟩
    "new.pdf" [9] "x" "y" "z" rfl

/-- The `setScale` clamp lands in `[1/2, 3]`. -/
lemma clampScale_bounds (v : ℚ) : 1/2 ≤ clampScale v ∧ clampScale v ≤ 3 :=
  ⟨le_max_left _ _, max_le (by norm_num) (min_le_left _ _)⟩

/-- The `renderPage` auto-fit clamp lands in `[1/2, 3]`. -/
lemma autoFitScale_bounds (env : RenderEnv) :
    1/2 ≤ autoFitScale env ∧ autoFitScale env ≤ 3 :=
  ⟨le_max_left _ _,
    max_le (by norm_num) (le_trans (min_le_right _ _) (min_le_right _ _))⟩

/-- A re-render keeps the scale bounds. -/
lemma renderPageZoom_bounds (z : ZoomState) (env : RenderEnv) (guardOk : Bool)
    (h : 1/2 ≤ z.scale ∧ z.scale ≤ 3) :
    1/2 ≤ (renderPageZoom z env guardOk).scale ∧
      (renderPageZoom z env guardOk).scale ≤ 3 := by
  unfold renderPageZoom
  by_cases hg : guardOk = false
  · rw [if_pos hg]; exact h
  · rw [if_neg hg]
    by_cases hm : z.manualScale
    · rw [if_pos hm]; exact h
    · rw [if_neg hm]; exact autoFitScale_bounds env

/-- The `setScale` operation always lands in the scale bounds. -/
lemma setScaleZoom_bounds (z : ZoomState) (newScale : ℚ) (env : RenderEnv)
    (guardOk : Bool) :
    1/2 ≤ (setScaleZoom z newScale env guardOk).scale ∧
      (setScaleZoom z newScale env guardOk).scale ≤ 3 :=
  renderPageZoom_bounds ⟨clampScale newScale, true⟩ env guardOk
    (clampScale_bounds newScale)

/-- Every zoom operation preserves the scale bounds. -/
lemma applyZoomOp_bounds (z : ZoomState) (op : ZoomOp)
    (h : 1/2 ≤ z.scale ∧ z.scale ≤ 3) :
    1/2 ≤ (applyZoomOp z op).scale ∧ (applyZoomOp z op).scale ≤ 3 := by
  cases op with
  | render env guardOk => exact renderPageZoom_bounds z env guardOk h
  | set newScale env guardOk => exact setScaleZoom_bounds z newScale env guardOk
  | zoomIn env guardOk => exact setScaleZoom_bounds z (z.scale * (5/4)) env guardOk
  | zoomOut env guardOk => exact setScaleZoom_bounds z (z.scale / (5/4)) env guardOk
  | fitWidth env hasPage guardOk =>
    simp only [applyZoomOp]
    by_cases hp : hasPage = false
    · rw [if_pos hp]; exact h
    · rw [if_neg hp]
      exact setScaleZoom_bounds z (env.containerWidth / env.defaultWidth) env guardOk
  | fitPage env guardOk => exact renderPageZoom_bounds ⟨z.scale, false⟩ env guardOk h

/-- C9: the viewer scale starts at 1.0, and after every sequence of
`renderPage`, `setScale`, `zoomIn`, `zoomOut`, `fitToWidth` and
`fitToPage` operations — for every container and page dimension — the
scale remains in `[0.5, 3.0]`. -/
theorem render_scale_bounded :
    (runZoomOps []).scale = 1 ∧
    ∀ ops : List ZoomOp,
      1/2 ≤ (runZoomOps ops).scale ∧ (runZoomOps ops).scale ≤ 3 := by
  refine ⟨rfl, ?_⟩
  intro ops
  have key : ∀ (l : List ZoomOp) (z : ZoomState),
      1/2 ≤ z.scale ∧ z.scale ≤ 3 →
      1/2 ≤ (l.foldl applyZoomOp z).scale ∧ (l.foldl applyZoomOp z).scale ≤ 3 := by
    intro l
    induction l with
    | nil => intro z hz; exact hz
    | cons op rest ih => intro z hz; exact ih _ (applyZoomOp_bounds z op hz)
  exact key ops initialZoom (by norm_num [initialZoom])

end PdfCrop
